import Mathlib

/-!
Shallow embedding of the AntiZalipBot core (src/bot.py): the event ledger,
the AI usage gate (`can_use_ai`, `can_spend`, `ai_generate`, `ai_reply`),
the timer engine (`cancel_user_timer`, `start_timer`, the expiry body of
`schedule_timer`), the chat message-slot tracker (`send_clean`), the
custom-minutes input handler, and the nightly digest loop's per-hour pass.

Days are modelled as natural-number indices (the code compares
`created_at::date = CURRENT_DATE`); money is modelled as rationals
(the code uses Python floats; all constants involved are exact decimals).
Network effects (Telegram sends, the OpenAI call, PostHog tracking) are
modelled as oracle parameters: a send-success flag, a backend outcome, and
a choice index for `random.choice`.
-/

set_option maxHeartbeats 1000000

/-- A row of the `events` table: `(user_id, event, value, created_at::date)`.
`user_id = 0` is the sentinel the code uses for the global `ai_usd` rows. -/
structure Event where
  uid : Nat
  kind : String
  value : Option ℚ
  day : Nat
deriving DecidableEq

/-- `ai_calls_today`: `SELECT COUNT(*) FROM events WHERE user_id=$1 AND
event='ai_call' AND created_at::date=CURRENT_DATE` (src/bot.py:166-172). -/
def ai_calls_today (today uid : Nat) (ledger : List Event) : Nat :=
  (ledger.filter (fun e => e.uid == uid && e.kind == "ai_call" && e.day == today)).length

/-- `total_spend_today`: `SELECT COALESCE(SUM(value),0) FROM events WHERE
event='ai_usd' AND created_at::date=CURRENT_DATE` (src/bot.py:174-181). -/
def total_spend_today (today : Nat) (ledger : List Event) : ℚ :=
  ((ledger.filter (fun e => e.kind == "ai_usd" && e.day == today)).map
    (fun e => e.value.getD 0)).sum

/-- `can_use_ai`: `ai_calls_today(uid) < MAX_AI_CALLS_PER_DAY` (src/bot.py:232-233). -/
def can_use_ai (maxCalls today uid : Nat) (ledger : List Event) : Bool :=
  ai_calls_today today uid ledger < maxCalls

/-- `can_spend`: `total_spend_today() + amount <= MAX_DAILY_SPEND` (src/bot.py:235-236). -/
def can_spend (maxSpend : ℚ) (today : Nat) (amount : ℚ) (ledger : List Event) : Bool :=
  total_spend_today today ledger + amount ≤ maxSpend

/-- Outcome of the OpenAI chat-completion call in `ai_generate`
(src/bot.py:217-230): success carries the raw message content, `error`
is any raised exception (caught and turned into `None`). -/
inductive BackendResult where
  | ok (content : String)
  | error
deriving DecidableEq

/-- The three built-in coaching strings `ai_generate` picks from with
`random.choice` when no OpenAI client is configured (src/bot.py:212-216). -/
def ai_static_replies : List String :=
  ["Сделай 5 глубоких вдохов, запиши один следующий шаг и начни его сейчас на 2 минуты.",
   "Положи телефон экраном вниз. Открой нужный файл/таску и дай себе 120 секунд простого действия.",
   "Закрой лишние вкладки и сделай один маленький шаг. Главное — начать на 2 минуты."]

/-- `ai_generate` (src/bot.py:210-230). `configured` is `bool(oa_client)`;
`choice` is the `random.choice` oracle; `backend` the completion outcome.
On success the code returns `(content or "").strip()`; on exception, `None`. -/
def ai_generate (configured : Bool) (choice : Fin 3) (backend : BackendResult) :
    Option String :=
  if configured then
    match backend with
    | BackendResult.ok t => some t.trim
    | BackendResult.error => none
  else some (ai_static_replies.getD choice.val "")

/-- Fallback returned when the per-actor daily call quota is exhausted (src/bot.py:241). -/
def QUOTA_FALLBACK : String :=
  "Сегодня лимит подсказок исчерпан. Без ИИ: 5 вдохов и 2 минуты на самый простой шаг."

/-- Fallback returned when the global daily spend ceiling would be exceeded (src/bot.py:245). -/
def SPEND_FALLBACK : String :=
  "На сегодня достигли глобального лимита 💸. Завтра ИИ вернётся. Сейчас — мини-шаг на 2 минуты."

/-- Fallback returned when the backend failed or produced an empty string (src/bot.py:249). -/
def EMPTY_FALLBACK : String :=
  "Сделай короткую паузу, расправь плечи и начни с шага на 2 минуты."

/-- The cost estimate `(max_tokens / 1000.0) * 0.0006` (src/bot.py:242). -/
def est_cost (max_tokens : Nat) : ℚ :=
  ((max_tokens : ℚ) / 1000) * (6 / 10000)

/-- Result of one `ai_reply` call: the returned string, the ledger after the
call's `log_event` / `add_spend` writes, and whether the OpenAI endpoint was
actually invoked. -/
structure AiReplyResult where
  reply : String
  ledger : List Event
  backendInvoked : Bool
deriving DecidableEq

/-- `ai_reply` (src/bot.py:238-249): quota gate, then spend gate, then
`ai_generate`; on admission it appends `ai_call` (value 1, the actor) and
`ai_usd` (value `est_cost`, sentinel actor 0) and returns `text or fallback`.
`prompt` and `temperature` are omitted: they only feed the backend call,
which is abstracted by the `backend` oracle. -/
def ai_reply (maxCalls : Nat) (maxSpend : ℚ) (configured : Bool) (choice : Fin 3)
    (backend : BackendResult) (today uid max_tokens : Nat) (ledger : List Event) :
    AiReplyResult :=
  if !(can_use_ai maxCalls today uid ledger) then
    { reply := QUOTA_FALLBACK
      ledger := ledger ++ [⟨uid, "ai_block", some 1, today⟩]
      backendInvoked := false }
  else if !(can_spend maxSpend today (est_cost max_tokens) ledger) then
    { reply := SPEND_FALLBACK
      ledger := ledger ++ [⟨uid, "ai_block", some 1, today⟩]
      backendInvoked := false }
  else
    let text := ai_generate configured choice backend
    { reply :=
        match text with
        | some t => if t = "" then EMPTY_FALLBACK else t
        | none => EMPTY_FALLBACK
      ledger := ledger ++ [⟨uid, "ai_call", some 1, today⟩,
                           ⟨0, "ai_usd", some (est_cost max_tokens), today⟩]
      backendInvoked := configured }

/-- Claim C2: when the actor's `ai_call` count for today has reached the
per-actor daily cap, `ai_reply` records a single `ai_block` event and returns
the static quota fallback without invoking the backend. -/
theorem ai_reply_quota_blocks (maxCalls : Nat) (maxSpend : ℚ) (configured : Bool)
    (choice : Fin 3) (backend : BackendResult) (today uid max_tokens : Nat)
    (ledger : List Event) (h : maxCalls ≤ ai_calls_today today uid ledger) :
    ai_reply maxCalls maxSpend configured choice backend today uid max_tokens ledger
      = { reply := QUOTA_FALLBACK
          ledger := ledger ++ [⟨uid, "ai_block", some 1, today⟩]
          backendInvoked := false } := by
  simp [ai_reply, can_use_ai, Nat.not_lt.mpr h]

/-- Witness for C2: with cap 3 and three prior `ai_call` events today for
actor 7, the fourth call returns the quota fallback and records `ai_block`. -/
theorem ai_reply_quota_blocks_witness :
    ai_reply 3 1 true 0 (BackendResult.ok "hello") 0 7 200
        [⟨7, "ai_call", some 1, 0⟩, ⟨7, "ai_call", some 1, 0⟩, ⟨7, "ai_call", some 1, 0⟩]
      = { reply := QUOTA_FALLBACK
          ledger := [⟨7, "ai_call", some 1, 0⟩, ⟨7, "ai_call", some 1, 0⟩,
                     ⟨7, "ai_call", some 1, 0⟩, ⟨7, "ai_block", some 1, 0⟩]
          backendInvoked := false } :=
  ai_reply_quota_blocks 3 1 true 0 (BackendResult.ok "hello") 0 7 200
    [⟨7, "ai_call", some 1, 0⟩, ⟨7, "ai_call", some 1, 0⟩, ⟨7, "ai_call", some 1, 0⟩]
    (by decide)

/-- Claim C3: below the per-actor quota, `ai_reply` takes the spend-block
branch (spend fallback, one `ai_block` appended, backend not invoked) exactly
when today's global `ai_usd` total plus the request's cost estimate strictly
exceeds the daily ceiling. -/
theorem ai_reply_spend_gate (maxCalls : Nat) (maxSpend : ℚ) (configured : Bool)
    (choice : Fin 3) (backend : BackendResult) (today uid max_tokens : Nat)
    (ledger : List Event) (h : ai_calls_today today uid ledger < maxCalls) :
    (ai_reply maxCalls maxSpend configured choice backend today uid max_tokens ledger
        = { reply := SPEND_FALLBACK
            ledger := ledger ++ [⟨uid, "ai_block", some 1, today⟩]
            backendInvoked := false })
      ↔ maxSpend < total_spend_today today ledger + est_cost max_tokens := by
  constructor
  · intro heq
    by_contra hnot
    push_neg at hnot
    have hcu : can_use_ai maxCalls today uid ledger = true := by
      simp [can_use_ai, h]
    have hcs : can_spend maxSpend today (est_cost max_tokens) ledger = true := by
      simp [can_spend, hnot]
    simp only [ai_reply, hcu, hcs, Bool.not_true, Bool.false_eq_true, if_false,
      Bool.not_eq_true'] at heq
    have hlen := congrArg (fun r => r.ledger.length) heq
    simp at hlen
  · intro hlt
    have hcu : can_use_ai maxCalls today uid ledger = true := by
      simp [can_use_ai, h]
    have hcs : can_spend maxSpend today (est_cost max_tokens) ledger = false := by
      simp [can_spend, hlt, not_le.mpr hlt]
    simp [ai_reply, hcu, hcs]

/-- Witness for C3: ceiling $1.00, today's `ai_usd` total 0.9995, and
`max_tokens = 1667` giving the estimate 0.0010002; since
0.9995 + 0.0010002 > 1.00 the call blocks with the spend fallback. -/
theorem ai_reply_spend_gate_witness :
    ai_reply 30 1 true 0 (BackendResult.ok "hello") 0 7 1667
        [⟨0, "ai_usd", some (9995/10000), 0⟩]
      = { reply := SPEND_FALLBACK
          ledger := [⟨0, "ai_usd", some (9995/10000), 0⟩, ⟨7, "ai_block", some 1, 0⟩]
          backendInvoked := false } :=
  (ai_reply_spend_gate 30 1 true 0 (BackendResult.ok "hello") 0 7 1667
      [⟨0, "ai_usd", some (9995/10000), 0⟩] (by decide)).mpr
    (by norm_num [total_spend_today, est_cost])

/-- Counterexample for C4: with the client configured, quota and ceiling wide
open, and the backend raising, the call returns the fallback but the resulting
ledger STILL contains an `ai_usd` spend row for the request —
`add_spend(est_cost)` runs unconditionally after `ai_generate` (src/bot.py:248),
refuting "does not record an ai_usd spend event for that request". -/
theorem ai_reply_failure_still_charges :
    ((ai_reply 30 1 true 0 BackendResult.error 0 7 200 []).reply = EMPTY_FALLBACK)
    ∧ ¬ ((ai_reply 30 1 true 0 BackendResult.error 0 7 200 []).ledger.filter
          (fun e => e.kind == "ai_usd") = []) := by
  have hr : ai_reply 30 1 true 0 BackendResult.error 0 7 200 []
      = { reply := EMPTY_FALLBACK
          ledger := [⟨7, "ai_call", some 1, 0⟩, ⟨0, "ai_usd", some (est_cost 200), 0⟩]
          backendInvoked := true } := by
    norm_num [ai_reply, can_use_ai, can_spend, ai_generate, ai_calls_today,
      total_spend_today, est_cost]
  rw [hr]
  exact ⟨rfl, by decide⟩

/-- Claim C4 (amended): for every admitted request where the backend fails or
returns an empty (post-strip) response, `ai_reply` returns the static fallback
to the caller without propagating the error, and records BOTH the `ai_call`
event and an `ai_usd` spend event of the full cost estimate. -/
theorem ai_reply_backend_failure (maxCalls : Nat) (maxSpend : ℚ) (choice : Fin 3)
    (backend : BackendResult) (today uid max_tokens : Nat) (ledger : List Event)
    (hq : ai_calls_today today uid ledger < maxCalls)
    (hs : total_spend_today today ledger + est_cost max_tokens ≤ maxSpend)
    (hb : backend = BackendResult.error
          ∨ ∃ t, backend = BackendResult.ok t ∧ t.trim = "") :
    ai_reply maxCalls maxSpend true choice backend today uid max_tokens ledger
      = { reply := EMPTY_FALLBACK
          ledger := ledger ++ [⟨uid, "ai_call", some 1, today⟩,
                               ⟨0, "ai_usd", some (est_cost max_tokens), today⟩]
          backendInvoked := true } := by
  have hcu : can_use_ai maxCalls today uid ledger = true := by
    simp [can_use_ai, hq]
  have hcs : can_spend maxSpend today (est_cost max_tokens) ledger = true := by
    simp [can_spend, hs]
  rcases hb with hb | ⟨t, hb, ht⟩
  · subst hb
    simp [ai_reply, hcu, hcs, ai_generate]
  · subst hb
    simp [ai_reply, hcu, hcs, ai_generate, ht]

/-- Witness for C4 (amended): empty ledger, cap 30, ceiling $1, backend error;
the call returns the fallback and the ledger gains `ai_call` plus an `ai_usd`
row worth `est_cost 200 = 0.00012`. -/
theorem ai_reply_backend_failure_witness :
    ai_reply 30 1 true 0 BackendResult.error 0 7 200 []
      = { reply := EMPTY_FALLBACK
          ledger := [⟨7, "ai_call", some 1, 0⟩, ⟨0, "ai_usd", some (3/25000), 0⟩]
          backendInvoked := true } := by
  have h := ai_reply_backend_failure 30 1 0 BackendResult.error 0 7 200 []
    (by decide) (by norm_num [total_spend_today, est_cost]) (Or.inl rfl)
  rw [h]
  norm_num [est_cost]

/-- Claim C10: with no backend client configured, an admitted `ai_reply` still
appends `ai_call` and an `ai_usd` spend of `(max_tokens / 1000) * 0.0006`,
returning one of the built-in static coaching strings without invoking the
backend — static responses consume the quota and the spend ceiling. -/
theorem ai_reply_unconfigured_charges (maxCalls : Nat) (maxSpend : ℚ)
    (choice : Fin 3) (backend : BackendResult) (today uid max_tokens : Nat)
    (ledger : List Event)
    (hq : ai_calls_today today uid ledger < maxCalls)
    (hs : total_spend_today today ledger + est_cost max_tokens ≤ maxSpend) :
    ai_reply maxCalls maxSpend false choice backend today uid max_tokens ledger
      = { reply := ai_static_replies.getD choice.val ""
          ledger := ledger ++ [⟨uid, "ai_call", some 1, today⟩,
                               ⟨0, "ai_usd", some (est_cost max_tokens), today⟩]
          backendInvoked := false } := by
  have hcu : can_use_ai maxCalls today uid ledger = true := by
    simp [can_use_ai, hq]
  have hcs : can_spend maxSpend today (est_cost max_tokens) ledger = true := by
    simp [can_spend, hs]
  simp [ai_reply, hcu, hcs, ai_generate]
  intro hcontra
  exact absurd hcontra (by revert choice; decide)

/-- Witness for C10: empty ledger, choice 2; the reply is the third static
string and the ledger gains `ai_call` plus an `ai_usd` row of 0.00012. -/
theorem ai_reply_unconfigured_charges_witness :
    ai_reply 30 1 false 2 BackendResult.error 0 7 200 []
      = { reply := "Закрой лишние вкладки и сделай один маленький шаг. Главное — начать на 2 минуты."
          ledger := [⟨7, "ai_call", some 1, 0⟩, ⟨0, "ai_usd", some (3/25000), 0⟩]
          backendInvoked := false } := by
  have h := ai_reply_unconfigured_charges 30 1 2 BackendResult.error 0 7 200 []
    (by decide) (by norm_num [total_spend_today, est_cost])
  rw [h]
  norm_num [est_cost, ai_static_replies]

/-- One running countdown: the `active_timers` task together with its
`timer_meta` entry `(until_utc, minutes)` (src/bot.py:347-348). `chat` is the
chat id captured by `schedule_timer`'s closure; `done` is `task.done()`. -/
structure TimerSession where
  chat : Nat
  deadline : Nat
  minutes : Nat
  done : Bool
deriving DecidableEq

/-- An attempted outbound Telegram message; `delivered` is the send-success
oracle (a failed send raises inside the calling coroutine). -/
structure OutMsg where
  chat : Nat
  text : String
  delivered : Bool
deriving DecidableEq

/-- The bot's in-process mutable state: the per-user timer registries
(`active_timers` / `timer_meta`, popped and written together), the `events`
table, and the `LAST_BOT_MSG` slot map keyed by `(chat_id, user_id)`. -/
structure BotState where
  timers : List (Nat × TimerSession)
  ledger : List Event
  lastBotMsg : List ((Nat × Nat) × (Nat × Option String))
deriving DecidableEq

/-- The session registered for `uid`, if any (dict lookup on the registries). -/
def lookup_timer (uid : Nat) (ts : List (Nat × TimerSession)) : Option TimerSession :=
  (ts.find? (fun p => p.1 == uid)).map Prod.snd

/-- `t and not t.done()` for the popped task in `cancel_user_timer`
(src/bot.py:353): a session exists and its task has not completed. -/
def timer_live (uid : Nat) (s : BotState) : Bool :=
  match lookup_timer uid s.timers with
  | some sess => !sess.done
  | none => false

/-- `cancel_user_timer` (src/bot.py:350-355): pop both registries for `uid`;
if a task existed and was not done, cancel it and log `timer_cancel`. -/
def cancel_user_timer (uid today : Nat) (s : BotState) : BotState :=
  { s with
    timers := s.timers.filter (fun p => !(p.1 == uid))
    ledger :=
      if timer_live uid s then s.ledger ++ [⟨uid, "timer_cancel", none, today⟩]
      else s.ledger }

/-- `start_timer` (src/bot.py:374-381): cancel any existing session, register
the new one with deadline `now + minutes` and the spawned (not-done) task,
then log `timer_start` with value `minutes`. -/
def start_timer (chat uid minutes now today : Nat) (s : BotState) : BotState :=
  let s1 := cancel_user_timer uid today s
  { s1 with
    timers := (uid, ⟨chat, now + minutes * 60, minutes, false⟩) :: s1.timers
    ledger := s1.ledger ++ [⟨uid, "timer_start", some (minutes : ℚ), today⟩] }

/-- Keeping only the entries for `uid` after removing all of them is empty. -/
theorem filter_key_after_remove {α : Type} (uid : Nat) (l : List (Nat × α)) :
    (l.filter (fun p => !(p.1 == uid))).filter (fun p => p.1 == uid) = [] := by
  induction l with
  | nil => rfl
  | cons a t ih =>
    by_cases h : a.1 = uid
    · simp [List.filter_cons, h, ih]
    · simp [List.filter_cons, h, ih]

/-- Claim C1: after `start_timer` the actor has exactly one registered session
— the new one — and a `timer_cancel` event was appended exactly when a live
(not yet completed) session existed beforehand. -/
theorem start_timer_unique_session (chat uid minutes now today : Nat) (s : BotState) :
    ((start_timer chat uid minutes now today s).timers.filter (fun p => p.1 == uid)
        = [(uid, ⟨chat, now + minutes * 60, minutes, false⟩)])
    ∧ ((start_timer chat uid minutes now today s).ledger
        = (if timer_live uid s then s.ledger ++ [⟨uid, "timer_cancel", none, today⟩]
           else s.ledger) ++ [⟨uid, "timer_start", some (minutes : ℚ), today⟩]) := by
  refine ⟨?_, rfl⟩
  simp [start_timer, cancel_user_timer, List.filter_cons,
    filter_key_after_remove uid s.timers]

/-- The expiry body of `schedule_timer` after the uninterrupted sleep
(src/bot.py:359-370): log `timer_done` with value `minutes`, pop both timer
registries, then attempt the "time's up" prompt. `LAST_BOT_MSG` is not
touched, and the event is logged before the send, so a send failure
(`sendOk = false`) changes nothing in the state. -/
def timer_expiry (chat uid minutes today : Nat) (sendOk : Bool) (s : BotState) :
    BotState × OutMsg :=
  ({ s with
     ledger := s.ledger ++ [⟨uid, "timer_done", some (minutes : ℚ), today⟩]
     timers := s.timers.filter (fun p => !(p.1 == uid)) },
   ⟨chat, "⏰ " ++ toString minutes ++ " минут вышло! Что дальше?", sendOk⟩)

/-- Claim C9: expiry of a timer started for `minutes` minutes, reached without
cancellation, appends exactly one `timer_done` event whose value is the
originally requested duration — for either value of the send-success oracle,
since the event is recorded before the notification is attempted. -/
theorem timer_expiry_records_done (chat uid minutes now today : Nat)
    (sendOk : Bool) (s : BotState) :
    (timer_expiry chat uid minutes today sendOk
        (start_timer chat uid minutes now today s)).1.ledger
      = (start_timer chat uid minutes now today s).ledger
          ++ [⟨uid, "timer_done", some (minutes : ℚ), today⟩] := rfl

/-- Counterexample for C8: a state whose message slot for `(chat, user) =
(5, 7)` is the running-timer card `(42, "timer")`; after the expiry handler
runs, the slot is unchanged — `schedule_timer` sends its prompt with a raw
`bot.send_message` and never clears or rewrites `LAST_BOT_MSG`, refuting
"clears the MessageSlot entry tagged as the running-timer indicator". -/
theorem timer_expiry_slot_untouched :
    (timer_expiry 5 7 25 0 true
        ⟨[(7, ⟨5, 1500, 25, false⟩)], [], [((5, 7), (42, some "timer"))]⟩).1.lastBotMsg
      = [((5, 7), (42, some "timer"))] := rfl

/-- Claim C8 (amended): when a session reaches its deadline uncancelled, the
handler records `timer_done`, removes the per-actor timer registration, and
emits the "time's up" follow-up prompt to the conversation; the MessageSlot
map is left unchanged (the prompt is sent outside the slot tracker). -/
theorem timer_expiry_behavior (chat uid minutes today : Nat) (sendOk : Bool)
    (s : BotState) :
    ((timer_expiry chat uid minutes today sendOk s).1.ledger
        = s.ledger ++ [⟨uid, "timer_done", some (minutes : ℚ), today⟩])
    ∧ ((timer_expiry chat uid minutes today sendOk s).1.timers.filter
          (fun p => p.1 == uid) = [])
    ∧ ((timer_expiry chat uid minutes today sendOk s).1.lastBotMsg = s.lastBotMsg)
    ∧ ((timer_expiry chat uid minutes today sendOk s).2
        = ⟨chat, "⏰ " ++ toString minutes ++ " минут вышло! Что дальше?", sendOk⟩) := by
  exact ⟨rfl, by simp [timer_expiry, filter_key_after_remove uid s.timers], rfl, rfl⟩

/-- Outcome of the custom-minutes text handler: reject non-numeric input,
reject out-of-range durations, or start the timer. -/
inductive CustomInputOutcome where
  | invalidFormat
  | invalidDuration
  | started (n : Nat)
deriving DecidableEq

/-- `text.strip()` (src/bot.py:742), modelled over the character list:
whitespace removed from both ends. -/
def strip_ws (text : String) : List Char :=
  ((text.data.dropWhile Char.isWhitespace).reverse.dropWhile Char.isWhitespace).reverse

/-- Decimal value of a digit string, as computed by Python's `int(text)`. -/
def digits_to_nat (cs : List Char) : Nat :=
  cs.foldl (fun acc c => acc * 10 + (c.toNat - 48)) 0

/-- `text.isdigit()` followed by `int(text)` (src/bot.py:743-747): `some n`
when the stripped text is non-empty and all digits, `none` otherwise. -/
def parse_minutes (text : String) : Option Nat :=
  let t := strip_ws text
  if !t.isEmpty && t.all Char.isDigit then some (digits_to_nat t) else none

/-- `custom_minutes_input` (src/bot.py:740-761): strip the text; if it is not
all digits, prompt again; parse it and if the value is outside `1..180`,
answer "Допустимы 1–180 минут." without starting anything; otherwise start
the timer. (The error prompts are sent through `send_clean`; only the
validation outcome and the state effect are modelled here.) -/
def custom_minutes_input (chat uid now today : Nat) (text : String) (s : BotState) :
    BotState × CustomInputOutcome :=
  match parse_minutes text with
  | none => (s, CustomInputOutcome.invalidFormat)
  | some n =>
    if 1 ≤ n ∧ n ≤ 180 then (start_timer chat uid n now today s, CustomInputOutcome.started n)
    else (s, CustomInputOutcome.invalidDuration)

/-- Claim C5: a parsed duration outside `1..180` is rejected as an invalid
duration, leaving the state unchanged (no session, no `timer_start` event);
a duration inside `1..180` starts the timer. -/
theorem custom_minutes_validation (chat uid now today n : Nat) (text : String)
    (s : BotState) (h : parse_minutes text = some n) :
    (¬ (1 ≤ n ∧ n ≤ 180) →
        custom_minutes_input chat uid now today text s
          = (s, CustomInputOutcome.invalidDuration))
    ∧ ((1 ≤ n ∧ n ≤ 180) →
        custom_minutes_input chat uid now today text s
          = (start_timer chat uid n now today s, CustomInputOutcome.started n)) := by
  constructor <;> intro hr <;> simp [custom_minutes_input, h, hr]

/-- Witness for C5: on the empty state, inputs "0" and "181" are rejected as
invalid durations with the state unchanged, while "1" and "180" start timers. -/
theorem custom_minutes_validation_witness :
    (custom_minutes_input 1 2 0 0 "0" ⟨[], [], []⟩
        = (⟨[], [], []⟩, CustomInputOutcome.invalidDuration))
    ∧ (custom_minutes_input 1 2 0 0 "181" ⟨[], [], []⟩
        = (⟨[], [], []⟩, CustomInputOutcome.invalidDuration))
    ∧ (custom_minutes_input 1 2 0 0 "1" ⟨[], [], []⟩
        = (start_timer 1 2 1 0 0 ⟨[], [], []⟩, CustomInputOutcome.started 1))
    ∧ (custom_minutes_input 1 2 0 0 "180" ⟨[], [], []⟩
        = (start_timer 1 2 180 0 0 ⟨[], [], []⟩, CustomInputOutcome.started 180)) :=
  ⟨(custom_minutes_validation 1 2 0 0 0 "0" ⟨[], [], []⟩ (by decide)).1 (by decide),
   (custom_minutes_validation 1 2 0 0 181 "181" ⟨[], [], []⟩ (by decide)).1 (by decide),
   (custom_minutes_validation 1 2 0 0 1 "1" ⟨[], [], []⟩ (by decide)).2 (by decide),
   (custom_minutes_validation 1 2 0 0 180 "180" ⟨[], [], []⟩ (by decide)).2 (by decide)⟩

/-- The tracked slot for a `(chat_id, user_id)` key, if any
(`LAST_BOT_MSG.get(key)`, src/bot.py:260). -/
def slot_lookup (key : Nat × Nat) (slots : List ((Nat × Nat) × (Nat × Option String))) :
    Option (Nat × Option String) :=
  (slots.find? (fun p => p.1 == key)).map Prod.snd

/-- `preserve_tags and last_tag in preserve_tags` (src/bot.py:263): a Python
`None` tag is never a member, and a `None`/empty preserve set protects
nothing. -/
def tag_preserved (preserve_tags : List String) (last_tag : Option String) : Bool :=
  match last_tag with
  | some t => preserve_tags.contains t
  | none => false

/-- `send_clean` (src/bot.py:254-270): look up the slot for `(chat_id,
user_id)`; when present and its tag is not preserved, attempt a best-effort
delete of the old message (the returned `Option Nat` is the id whose deletion
was attempted); send the new message and store `(new_message_id, tag)` as the
slot. A Python `preserve_tags=None` is the empty list. -/
def send_clean (chat uid : Nat) (tag : Option String) (preserve_tags : List String)
    (new_mid : Nat) (slots : List ((Nat × Nat) × (Nat × Option String))) :
    List ((Nat × Nat) × (Nat × Option String)) × Option Nat :=
  let key := (chat, uid)
  let del : Option Nat :=
    match slot_lookup key slots with
    | none => none
    | some (mid, last_tag) =>
      if tag_preserved preserve_tags last_tag then none else some mid
  ((key, (new_mid, tag)) :: slots.filter (fun p => !(p.1 == key)), del)

/-- Claim C7: when the current slot's tag is preserved, `send_clean` attempts
no deletion yet still overwrites the tracked slot with the new message id and
tag; when the tag is not preserved, it attempts to delete the old message id
before overwriting the slot — preservation protects the message, not the
slot. -/
theorem send_clean_slot_behavior (chat uid new_mid mid : Nat) (tag last_tag : Option String)
    (preserve_tags : List String) (slots : List ((Nat × Nat) × (Nat × Option String)))
    (h : slot_lookup (chat, uid) slots = some (mid, last_tag)) :
    ((send_clean chat uid tag preserve_tags new_mid slots).2
        = if tag_preserved preserve_tags last_tag then none else some mid)
    ∧ (slot_lookup (chat, uid) (send_clean chat uid tag preserve_tags new_mid slots).1
        = some (new_mid, tag)) := by
  constructor
  · simp [send_clean, h]
  · simp [send_clean, slot_lookup, List.find?_cons_of_pos]

/-- Witness for C7: the slot holds message 10 tagged "timer"; a send tagged
"menu" with `preserve_tags = ["timer"]` deletes nothing and leaves the slot as
`(11, "menu")`. -/
theorem send_clean_slot_behavior_witness :
    ((send_clean 1 2 (some "menu") ["timer"] 11 [((1, 2), (10, some "timer"))]).2 = none)
    ∧ (slot_lookup (1, 2)
          (send_clean 1 2 (some "menu") ["timer"] 11 [((1, 2), (10, some "timer"))]).1
        = some (11, some "menu")) := by
  have h := send_clean_slot_behavior 1 2 11 10 (some "menu") (some "timer") ["timer"]
    [((1, 2), (10, some "timer"))] (by decide)
  exact ⟨by rw [h.1]; decide, h.2⟩

/-- One pass over the `users` rows inside the digest hour (src/bot.py:839-847):
for each `(user_id, last_digest_date)` row, skip it when the cursor already
equals today; otherwise attempt the digest send (`_send_digest_to_user`
swallows send errors, src/bot.py:826-829) and then set `last_digest_date =
today` regardless of the outcome. Returns the updated rows and the attempted
sends `(user_id, delivered)`. -/
def nightly_digest_pass (sendOk : Nat → Bool) (today : Nat) :
    List (Nat × Option Nat) → List (Nat × Option Nat) × List (Nat × Bool)
  | [] => ([], [])
  | (uid, last) :: rest =>
    let r := nightly_digest_pass sendOk today rest
    if last = some today then ((uid, last) :: r.1, r.2)
    else ((uid, some today) :: r.1, (uid, sendOk uid) :: r.2)

/-- One iteration of `nightly_digest_loop` (src/bot.py:831-853): the pass over
the users runs only when the current hour equals the configured digest hour. -/
def nightly_digest_tick (digestHour hourNow : Nat) (sendOk : Nat → Bool) (today : Nat)
    (users : List (Nat × Option Nat)) : List (Nat × Option Nat) × List (Nat × Bool) :=
  if hourNow = digestHour then nightly_digest_pass sendOk today users else (users, [])

/-- The digest cursor recorded for `uid` (`last_digest_date`). -/
def users_lookup (uid : Nat) (users : List (Nat × Option Nat)) : Option (Option Nat) :=
  (users.find? (fun p => p.1 == uid)).map Prod.snd

/-- A digest pass maps every row's cursor to today and attempts exactly the
rows whose cursor was not already today. -/
theorem nightly_digest_pass_eq (sendOk : Nat → Bool) (today : Nat)
    (users : List (Nat × Option Nat)) :
    nightly_digest_pass sendOk today users
      = (users.map (fun p => (p.1, some today)),
         (users.filter (fun p => !(p.2 == some today))).map (fun p => (p.1, sendOk p.1))) := by
  induction users with
  | nil => rfl
  | cons a rest ih =>
    obtain ⟨uid, last⟩ := a
    by_cases h : last = some today
    · simp [nightly_digest_pass, ih, h, List.filter_cons]
    · simp [nightly_digest_pass, ih, h, List.filter_cons]

/-- Setting every cursor to today rewrites the per-user lookup accordingly. -/
theorem users_lookup_map_today (uid today : Nat) (users : List (Nat × Option Nat)) :
    users_lookup uid (users.map (fun p => (p.1, some today)))
      = (users_lookup uid users).map (fun _ => some today) := by
  induction users with
  | nil => rfl
  | cons a rest ih =>
    by_cases h : a.1 = uid
    · simp [users_lookup, List.find?_cons, h]
    · simpa [users_lookup, List.find?_cons, h] using ih

/-- After every cursor is set to today, no row passes the "cursor is not
today" filter. -/
theorem filter_not_today_map (today : Nat) (l : List (Nat × Option Nat)) :
    (l.map (fun p => (p.1, some today))).filter (fun p => !(p.2 == some today)) = [] := by
  induction l with
  | nil => rfl
  | cons a rest ih => simp [List.filter_cons, ih]

/-- Claim C6: during the configured hour, an actor whose `last_digest_date` is
not today gets exactly one attempted digest send, its cursor becomes today
for either outcome of the send oracle, and a second scheduler pass within the
same hour attempts no sends at all. -/
theorem digest_once_per_day (digestHour : Nat) (sendOk : Nat → Bool) (today uid : Nat)
    (users : List (Nat × Option Nat)) (last : Option Nat)
    (hnd : (users.map Prod.fst).Nodup)
    (hu : users_lookup uid users = some last)
    (hlast : last ≠ some today) :
    (((nightly_digest_tick digestHour digestHour sendOk today users).2.map
        Prod.fst).count uid = 1)
    ∧ (users_lookup uid (nightly_digest_tick digestHour digestHour sendOk today users).1
        = some (some today))
    ∧ ((nightly_digest_tick digestHour digestHour sendOk today
          (nightly_digest_tick digestHour digestHour sendOk today users).1).2 = []) := by
  have htick : ∀ us, nightly_digest_tick digestHour digestHour sendOk today us
      = nightly_digest_pass sendOk today us := by
    intro us; simp [nightly_digest_tick]
  obtain ⟨a, hfind, hsnd⟩ : ∃ a, users.find? (fun p => p.1 == uid) = some a ∧ a.2 = last := by
    simp only [users_lookup, Option.map_eq_some'] at hu
    exact hu
  have hkey : a.1 = uid := by
    have := List.find?_some hfind
    simpa using this
  have hmem : a ∈ users := List.mem_of_find?_eq_some hfind
  refine ⟨?_, ?_, ?_⟩
  · rw [htick, nightly_digest_pass_eq]
    have hmf : ((users.filter (fun p => !(p.2 == some today))).map
        (fun p => (p.1, sendOk p.1))).map Prod.fst
        = (users.filter (fun p => !(p.2 == some today))).map Prod.fst := by
      simp [List.map_map, Function.comp]
    rw [hmf]
    have hsub : List.Sublist
        ((users.filter (fun p => !(p.2 == some today))).map Prod.fst)
        (users.map Prod.fst) :=
      (List.filter_sublist users).map Prod.fst
    have hnd' := hnd.sublist hsub
    have hin : uid ∈ (users.filter (fun p => !(p.2 == some today))).map Prod.fst := by
      have : a ∈ users.filter (fun p => !(p.2 == some today)) := by
        refine List.mem_filter.mpr ⟨hmem, ?_⟩
        simp [hsnd, hlast]
      simpa [hkey] using List.mem_map_of_mem Prod.fst this
    exact List.count_eq_one_of_mem hnd' hin
  · rw [htick, nightly_digest_pass_eq]
    simp only [users_lookup_map_today, hu, Option.map_some']
  · rw [htick, htick, nightly_digest_pass_eq, nightly_digest_pass_eq]
    simp [filter_not_today_map]

/-- Witness for C6: one user (actor 7) whose cursor is day 0, today is day 1,
the digest hour is 22, and every send fails; the first tick attempts exactly
one send for actor 7 and advances the cursor anyway, and the second tick
attempts nothing. -/
theorem digest_once_per_day_witness :
    (((nightly_digest_tick 22 22 (fun _ => false) 1 [(7, some 0)]).2.map
        Prod.fst).count 7 = 1)
    ∧ (users_lookup 7 (nightly_digest_tick 22 22 (fun _ => false) 1 [(7, some 0)]).1
        = some (some 1))
    ∧ ((nightly_digest_tick 22 22 (fun _ => false) 1
          (nightly_digest_tick 22 22 (fun _ => false) 1 [(7, some 0)]).1).2 = []) :=
  digest_once_per_day 22 (fun _ => false) 1 7 [(7, some 0)] (some 0)
    (by decide) (by decide) (by decide)
